import Mathlib

/-!
Verification of the applicant-bot conversation core: a shallow embedding of
`video_handler.py`, `action_tracker.py`, `user_data_handler.py` and the
`start` handler of `applicant_bot.py`, together with proofs of the stated
behavioural properties (media validation policy, event-log semantics, user
registry idempotence, and the pending-submission lifecycle).
-/

namespace TgBot

/-! ## Media intake validator (`video_handler._validate_incoming_video`) -/

/-- The success text sent after a confirmed video is downloaded. -/
def VIDEO_SAVED_TEXT : String :=
  "🚀Поздравляю, я отправил видео руководителю.\nРуководитель посмотрит его и ответит напрямую, если ваши вайбы совпали.\nХорошего дня!😊"

/-- The constant `MAX_DURATION_SECS = 90` of `video_handler.py`. -/
def MAX_DURATION_SECS : Int := 90

/-- Rejection message returned when the duration exceeds the ceiling
(the text cites 60 seconds although the enforced ceiling is 90). -/
def VIDEO_TOO_LONG_TEXT : String :=
  "Видео слишком длиннее. Пожалуйста, перезапиши более короткое до 60 секунд."

/-- Rejection message returned when the file exceeds 50 MB. -/
def VIDEO_TOO_LARGE_TEXT : String :=
  "Видео больше максимального размера 50 MB. Пожалуйста, запиши кружочек, он точно меньше 50 MB."

/-- Embedding of `_validate_incoming_video(file_size, duration, max_duration=90)`:
returns an error message if invalid, the empty string if valid.  The duration
check comes first; the size check runs only when `file_size` is truthy
(non-zero), and divides by `1024*1024` (true division, modelled in `ℚ`). -/
def validate_incoming_video (file_size duration max_duration : Int) : String :=
  if duration > max_duration then
    VIDEO_TOO_LONG_TEXT
  else if file_size ≠ 0 then
    if (file_size : ℚ) / (1024 * 1024) > 50 then VIDEO_TOO_LARGE_TEXT else ""
  else ""

/-- For integer byte counts the rational size check `file_size/(1024*1024) > 50`
is equivalent to the integer comparison `file_size > 50*1024*1024`. -/
lemma size_check_iff (fs : Int) :
    ((50 : ℚ) < (fs : ℚ) / (1024 * 1024)) ↔ 50 * (1024 * 1024) < fs := by
  rw [lt_div_iff₀ (by norm_num)]
  exact_mod_cast Iff.rfl

/-- Computation rule for the validator with the size check phrased over `Int`. -/
lemma validate_incoming_video_eq (fs dur maxd : Int) :
    validate_incoming_video fs dur maxd =
      if maxd < dur then VIDEO_TOO_LONG_TEXT
      else if fs ≠ 0 then
        (if 50 * (1024 * 1024) < fs then VIDEO_TOO_LARGE_TEXT else "")
      else "" := by
  unfold validate_incoming_video
  simp only [gt_iff_lt, size_check_iff]

/-! ## Telegram data model (the fields the handlers read) -/

/-- An end user as seen on an `Update` (`update.effective_user`). -/
structure TgUser where
  id : Int
  username : Option String
  first_name : Option String
  last_name : Option String
  language_code : Option String
deriving DecidableEq, Repr

/-- A chat (`update.effective_chat`). -/
structure TgChat where
  id : Int
  chat_type : String
deriving DecidableEq, Repr

/-- A video or video-note attachment (`file_id`, `duration`, optional `file_size`). -/
structure TgVideo where
  file_id : String
  duration : Int
  file_size : Option Int
deriving DecidableEq, Repr

/-- A document attachment (`file_id`, optional `mime_type`, optional `file_size`). -/
structure TgDocument where
  file_id : String
  mime_type : Option String
  file_size : Option Int
deriving DecidableEq, Repr

/-- An inbound message carrying at most one media attachment of each kind. -/
structure TgMessage where
  video : Option TgVideo
  video_note : Option TgVideo
  document : Option TgDocument
deriving DecidableEq, Repr

/-- A button callback (`update.callback_query`): the payload token and the
pressing user; `has_message` records whether the callback carries a message
(it only selects between `reply_text` and `send_message`, both modelled as
one reply effect). -/
structure CallbackQuery where
  data : String
  from_user : TgUser
  has_message : Bool
deriving DecidableEq, Repr

/-- One inbound platform update. -/
structure Update where
  effective_user : Option TgUser
  effective_chat : Option TgChat
  message : Option TgMessage
  callback_query : Option CallbackQuery
deriving DecidableEq, Repr

/-! ## Event log (`action_tracker.py`) -/

/-- A JSON scalar as stored in the auxiliary fields of an action entry. -/
inductive JVal where
  | jnull
  | jint (n : Int)
  | jstr (s : String)
deriving DecidableEq, Repr

/-- Conversion giving `jnull` for Python `None` and `jint` otherwise. -/
def jOfOptInt : Option Int → JVal
  | some n => .jint n
  | none => .jnull

/-- One entry of the action log, as built by `_log_action`: the fixed
`action_type`/`user_id`/`timestamp` fields plus the `additional_data`
mapping (its keys — `answer`, `reason`, `kind`, `duration`, `file_size` —
never collide with the fixed fields). -/
structure ActionEntry where
  action_type : String
  user_id : Int
  timestamp : String
  extra : List (String × JVal)
deriving DecidableEq, Repr

/-- The observable states of a JSON store file on disk: missing, a parseable
JSON list, parseable JSON that is not a list, or unparseable bytes. -/
inductive StoreFile where
  | absent
  | content (entries : List ActionEntry)
  | notAList
  | unparseable
deriving DecidableEq, Repr

/-- The read step of `_append_action_to_file`: a missing file, a JSON value
that is not a list (`isinstance` check) and a `json.loads` failure (inner
`except`) all yield the empty list. -/
def read_action_store : StoreFile → List ActionEntry
  | .absent => []
  | .content l => l
  | .notAList => []
  | .unparseable => []

/-- Embedding of `_append_action_to_file(action_entry, filename)` with a succeeding write:
read (recovering from corruption), append in memory, write the whole list. -/
def append_action_to_file (e : ActionEntry) (f : StoreFile) : StoreFile :=
  .content (read_action_store f ++ [e])

/-- Embedding of `_append_action_to_file` with its outer `try/except` made explicit:
`writeSucceeds` stands for the I/O attempt in the `try` block; an `.error`
raised there is caught by `except: pass`, leaving the file as it was and
raising nothing to the caller (so the result is always `.ok`). -/
def append_action_checked (e : ActionEntry) (writeSucceeds : Bool) (f : StoreFile) :
    Except String StoreFile :=
  let attempt : Except String StoreFile :=
    if writeSucceeds then .ok (.content (read_action_store f ++ [e]))
    else .error "write failed"
  match attempt with
  | .ok f1 => .ok f1
  | .error _ => .ok f

/-- Embedding of `_log_action(action_type, user_id, additional_data, filename)`: build the
entry with the current timestamp and append it to the file. -/
def log_action (action_type : String) (user_id : Int) (ts : String)
    (extra : List (String × JVal)) (f : StoreFile) : StoreFile :=
  append_action_to_file ⟨action_type, user_id, ts, extra⟩ f

/-- Embedding of `_get_user_id_from_update(update)`. -/
def get_user_id_from_update (u : Update) : Option Int :=
  u.effective_user.map (fun x => x.id)

/-- The common body of every `log_*` function: extract the user id and log
only when it is truthy (`if user_id:` — both `None` and `0` are falsy). -/
def log_event (action_type : String) (extra : List (String × JVal)) (u : Update)
    (ts : String) (f : StoreFile) : StoreFile :=
  match get_user_id_from_update u with
  | some uid => if uid = 0 then f else log_action action_type uid ts extra f
  | none => f

/-- Embedding of `log_start`. -/
def log_start (u : Update) (ts : String) (f : StoreFile) : StoreFile :=
  log_event "start" [] u ts f

/-- Embedding of `log_start_triggered_again`. -/
def log_start_triggered_again (u : Update) (ts : String) (f : StoreFile) : StoreFile :=
  log_event "start_triggered_again" [] u ts f

/-- Embedding of `log_sent_video` with the `video_info` mapping built in `handle_video`. -/
def log_sent_video (u : Update) (ts : String) (kind : String)
    (duration file_size : Option Int) (f : StoreFile) : StoreFile :=
  log_event "sent_video"
    [("kind", .jstr kind), ("duration", jOfOptInt duration),
     ("file_size", jOfOptInt file_size)] u ts f

/-- Embedding of `log_answered_confirm_sending`. -/
def log_answered_confirm_sending (u : Update) (ts : String) (answer : String)
    (f : StoreFile) : StoreFile :=
  log_event "answered_confirm_sending" [("answer", .jstr answer)] u ts f

/-- Embedding of `get_user_actions(user_id, filename)`: missing, non-list or unparseable
files give `[]`; otherwise filter the list by `user_id`. -/
def get_user_actions (user_id : Int) (f : StoreFile) : List ActionEntry :=
  match f with
  | .absent => []
  | .content l => l.filter (fun a => decide (a.user_id = user_id))
  | .notAList => []
  | .unparseable => []

/-- A sequence of `_log_action` calls (each with a valid user id already
checked by its `log_*` wrapper), folded over the store file. -/
def record_all (es : List ActionEntry) (f : StoreFile) : StoreFile :=
  es.foldl (fun f e => log_action e.action_type e.user_id e.timestamp e.extra f) f

/-! ## User registry (`user_data_handler.py`) -/

/-- The essential fields stored per user (`clean_entry` in `_append_user_event`);
also the view of an incoming entry that `_append_user_event` reads. -/
structure UserRecord where
  user_id : Option Int
  username : Option String
  first_name : Option String
  last_name : Option String
  language_code : Option String
deriving DecidableEq, Repr

/-- The full dictionary built by `collect_user_silently` (essential fields
plus chat data and a timestamp).  It always has its eight keys, so as a
Python dict it is always truthy. -/
structure CollectedUser where
  user_id : Option Int
  username : Option String
  first_name : Option String
  last_name : Option String
  language_code : Option String
  chat_id : Option Int
  chat_type : Option String
  timestamp : String
deriving DecidableEq, Repr

/-- The projection of a collected dictionary onto the essential fields that
`_append_user_event` keeps (`clean_entry`). -/
def clean_user_entry (e : CollectedUser) : UserRecord :=
  { user_id := e.user_id, username := e.username, first_name := e.first_name,
    last_name := e.last_name, language_code := e.language_code }

/-- Embedding of `_append_user_event(entry, filename)` on the parsed registry list:
skip when `entry["user_id"]` is falsy (`None` or `0`); skip when a record
with that `user_id` already exists; otherwise append the essential fields. -/
def append_user_event (entry : UserRecord) (store : List UserRecord) : List UserRecord :=
  match entry.user_id with
  | none => store
  | some uid =>
    if uid = 0 then store
    else if store.any (fun u => decide (u.user_id = some uid)) then store
    else store ++ [entry]

/-- N successive `_append_user_event` calls. -/
def register_all (es : List UserRecord) (store : List UserRecord) : List UserRecord :=
  es.foldl (fun s e => append_user_event e s) store

/-! ## Conversation session state (`context.user_data`) -/

/-- The session dictionary fields the handlers touch.  `pending_duration`
stores the Python value put there by `handle_video`, which is itself `None`
for a document video, so the outer `Option` is presence in the dict and the
inner one the stored value.  `video_confirmation_processed` is `False` when
the key is absent. -/
structure UserData where
  collected_user : Option CollectedUser
  pending_file_id : Option String
  pending_kind : Option String
  pending_duration : Option (Option Int)
  video_confirmation_processed : Bool
deriving DecidableEq, Repr

/-- A session with no keys set yet. -/
def freshUserData : UserData :=
  { collected_user := none, pending_file_id := none, pending_kind := none,
    pending_duration := none, video_confirmation_processed := false }

/-- The dictionary built at the top of `collect_user_silently`. -/
def collect_user_from (u : Update) (ts : String) : CollectedUser :=
  { user_id := u.effective_user.map (fun x => x.id),
    username := u.effective_user.bind (fun x => x.username),
    first_name := u.effective_user.bind (fun x => x.first_name),
    last_name := u.effective_user.bind (fun x => x.last_name),
    language_code := u.effective_user.bind (fun x => x.language_code),
    chat_id := u.effective_chat.map (fun x => x.id),
    chat_type := u.effective_chat.map (fun x => x.chat_type),
    timestamp := ts }

/-- Embedding of `collect_user_silently(update, context, filename)`: cache the collected
dictionary in the session under `collected_user` and register the user in
the registry file (first-write-wins via `_append_user_event`). -/
def collect_user_silently (u : Update) (ts : String) (ud : UserData)
    (reg : List UserRecord) : UserData × List UserRecord :=
  let collected := collect_user_from u ts
  ({ ud with collected_user := some collected },
   append_user_event (clean_user_entry collected) reg)

/-! ## Conversation handlers (`applicant_bot.py`, `video_handler.py`) -/

/-- The outward side effects a handler performs, besides the session, registry
and log-file state threaded explicitly. -/
inductive Effect where
  | answerCallback
  | reply (text : String)
  | downloadAttempt (file_id : String)
  | askConfirm
deriving DecidableEq, Repr

/-- The logging slice of `applicant_bot.start` (lines 70–77): collect the
user silently, then log `start_triggered_again` when
`context.user_data.get("collected_user")` is truthy and `start` otherwise.
The rest of the handler only sends the intro text and the manager video and
never touches these events. -/
def start_log_slice (u : Update) (ts : String) (ud : UserData)
    (reg : List UserRecord) (log : StoreFile) :
    UserData × List UserRecord × StoreFile :=
  let cs := collect_user_silently u ts ud reg
  let ud1 := cs.1
  let reg1 := cs.2
  if ud1.collected_user.isSome then
    (ud1, reg1, log_start_triggered_again u ts log)
  else
    (ud1, reg1, log_start u ts log)

/-- Reply sent when no usable media is found on the message. -/
def NO_VIDEO_TEXT : String :=
  "Не удалось определить видео. Пришли, пожалуйста, именно видео."

/-- The media-extraction cascade of `handle_video`: prefer `video`, then
`video_note`, then a `document` whose mime type starts with `video/`
(a document has no duration).  Yields `(file_id, kind, duration, file_size)`. -/
def extract_media (m : TgMessage) : Option (String × String × Option Int × Option Int) :=
  match m.video with
  | some v => some (v.file_id, "video", some v.duration, v.file_size)
  | none =>
    match m.video_note with
    | some v => some (v.file_id, "video_note", some v.duration, v.file_size)
    | none =>
      match m.document with
      | some d =>
        if (d.mime_type.getD "").startsWith "video/" then
          some (d.file_id, "document_video", none, d.file_size)
        else none
      | none => none

/-- Embedding of `handle_video(update, context, ask_to_confirm_sending_func)`: collect the
user, extract the media, validate it (`file_size or 0`, `duration or 0`),
and on success stage it into the `pending_*` fields, clear the
`video_confirmation_processed` flag, log `sent_video` and ask to confirm. -/
def handle_video (u : Update) (ts : String) (ud : UserData)
    (reg : List UserRecord) (log : StoreFile) :
    UserData × List UserRecord × StoreFile × List Effect :=
  match u.message with
  | none => (ud, reg, log, [])
  | some m =>
    let cs := collect_user_silently u ts ud reg
    let ud1 := cs.1
    let reg1 := cs.2
    match extract_media m with
    | none => (ud1, reg1, log, [.reply NO_VIDEO_TEXT])
    | some (file_id, kind, duration, file_size) =>
      let error_msg :=
        validate_incoming_video (file_size.getD 0) (duration.getD 0) MAX_DURATION_SECS
      if error_msg ≠ "" then
        (ud1, reg1, log, [.reply error_msg])
      else
        let ud2 := { ud1 with
          pending_file_id := some file_id,
          pending_kind := some kind,
          pending_duration := some duration,
          video_confirmation_processed := false }
        (ud2, reg1, log_sent_video u ts kind duration file_size log, [.askConfirm])

/-- Reply sent when confirmation arrives with no pending file id. -/
def NO_PENDING_TEXT : String :=
  "Нет видео для сохранения. Пришли заново, пожалуйста."

/-- Retry instruction sent when the local download fails. -/
def DOWNLOAD_ERROR_TEXT : String :=
  "Ошибка при скачивании видео. Пришли заново, пожалуйста."

/-- Reply sent on rejection (`confirm_no` and any other non-confirm token). -/
def REJECT_TEXT : String :=
  "Хорошо, запиши новое видео и пришли его сюда, пожалуйста."

/-- Embedding of `handle_video_confirmation(update, context, bot_type)`.  `download_result`
is the string returned by the external `download_video_locally` call (empty
on failure).  The callback is acknowledged first; a confirmation already
marked processed returns immediately; otherwise the answer is logged and the
confirm branch marks the session processed before attempting the download,
clearing the `pending_*` fields only after a successful download, while any
other token clears them at once. -/
def handle_video_confirmation (u : Update) (ts : String) (download_result : String)
    (ud : UserData) (log : StoreFile) : UserData × StoreFile × List Effect :=
  match u.callback_query with
  | none => (ud, log, [])
  | some q =>
    if ud.video_confirmation_processed then
      (ud, log, [.answerCallback])
    else
      let log1 := log_answered_confirm_sending u ts q.data log
      if q.data = "confirm_yes" ∨ q.data = "privacy_confirm_yes" then
        let ud1 := { ud with video_confirmation_processed := true }
        match ud.pending_file_id with
        | none =>
          (ud1, log1, [.answerCallback, .reply NO_PENDING_TEXT])
        | some fid =>
          if download_result = "" then
            (ud1, log1,
             [.answerCallback, .downloadAttempt fid, .reply DOWNLOAD_ERROR_TEXT])
          else
            ({ ud1 with
                pending_file_id := none,
                pending_kind := none,
                pending_duration := none },
             log1,
             [.answerCallback, .downloadAttempt fid, .reply VIDEO_SAVED_TEXT])
      else
        ({ ud with
            pending_file_id := none,
            pending_kind := none,
            pending_duration := none },
         log1, [.answerCallback, .reply REJECT_TEXT])

/-! ## Theorems -/

/-- C2: the media validator returns ok (the empty message) for
(10 MB, 30 s), the too-long message for (10 MB, 95 s) and the too-large
message for (60·1024·1024 bytes, 30 s); and for every input the duration
check is applied first, so any duration above 90 yields the too-long
message regardless of file size. -/
theorem validator_examples_and_duration_precedence :
    validate_incoming_video (10 * 1024 * 1024) 30 90 = "" ∧
    validate_incoming_video (10 * 1024 * 1024) 95 90 = VIDEO_TOO_LONG_TEXT ∧
    validate_incoming_video (60 * 1024 * 1024) 30 90 = VIDEO_TOO_LARGE_TEXT ∧
    ∀ fs dur : Int, 90 < dur →
      validate_incoming_video fs dur 90 = VIDEO_TOO_LONG_TEXT := by
  refine ⟨by rw [validate_incoming_video_eq]; decide,
          by rw [validate_incoming_video_eq]; decide,
          by rw [validate_incoming_video_eq]; decide,
          fun fs dur h => ?_⟩
  rw [validate_incoming_video_eq, if_pos h]

/-- Witness for C2: an input that is both too long (95 s) and too large
(60 MB) yields the too-long message. -/
theorem validator_examples_and_duration_precedence_witness :
    validate_incoming_video (60 * 1024 * 1024) 95 90 = VIDEO_TOO_LONG_TEXT :=
  validator_examples_and_duration_precedence.2.2.2 (60 * 1024 * 1024) 95 (by decide)

/-- C3: the accepting region of the validator — any duration at most 90
seconds (in particular every duration strictly between 60 and 90, despite
the 60-second instruction text) together with a file size that is zero
(absent) or at most 50 MB (bytes divided by 1024·1024) is accepted; zero
or absent size or duration is never rejected. -/
theorem validator_accepts_within_limits (fs dur : Int)
    (hdur : dur ≤ 90)
    (hsize : fs = 0 ∨ (fs : ℚ) / (1024 * 1024) ≤ 50) :
    validate_incoming_video fs dur 90 = "" := by
  rw [validate_incoming_video_eq, if_neg (not_lt.mpr hdur)]
  rcases hsize with h | h
  · rw [if_neg (not_not.mpr h)]
  · have hle : ¬ (50 * (1024 * 1024) < fs) := by
      rw [← size_check_iff]
      exact not_lt.mpr h
    by_cases hz : fs = 0
    · rw [if_neg (not_not.mpr hz)]
    · rw [if_pos hz, if_neg hle]

/-- Witness for C3: a 75-second video with unreported size is accepted. -/
theorem validator_accepts_within_limits_witness :
    validate_incoming_video 0 75 90 = "" :=
  validator_accepts_within_limits 0 75 (by decide) (Or.inl rfl)

/-- C5: a `record` call (the shared body of the `log_*` functions) on an
update that carries no user appends nothing: the log file is returned
unchanged (same contents, same length), for every action type, extra data
and prior file state; likewise for the concrete `log_start` wrapper. -/
theorem record_without_user_is_noop :
    ∀ (a : String) (extra : List (String × JVal)) (ec : Option TgChat)
      (m : Option TgMessage) (cb : Option CallbackQuery) (ts : String) (f : StoreFile),
      log_event a extra ⟨none, ec, m, cb⟩ ts f = f ∧
      log_start ⟨none, ec, m, cb⟩ ts f = f := by
  intro a extra ec m cb ts f
  exact ⟨rfl, rfl⟩

/-- C6: `record` never raises to its caller — for every entry, write outcome
and prior file state the checked append returns `.ok` — and on a corrupt
existing store (unparseable bytes, or JSON that is not a list) it recovers
lossily: the store is treated as empty and the resulting file holds exactly
the one newly appended event. -/
theorem record_swallows_errors_and_recovers :
    (∀ (e : ActionEntry) (w : Bool) (f : StoreFile),
        ∃ f1, append_action_checked e w f = .ok f1) ∧
    (∀ e : ActionEntry,
        append_action_checked e true .unparseable = .ok (.content [e])) ∧
    (∀ e : ActionEntry,
        append_action_checked e true .notAList = .ok (.content [e])) := by
  refine ⟨fun e w f => ?_, fun e => rfl, fun e => rfl⟩
  cases w
  · exact ⟨f, rfl⟩
  · exact ⟨.content (read_action_store f ++ [e]), rfl⟩

/-- Appending a batch of log calls to a parsed store concatenates it. -/
lemma record_all_content (es : List ActionEntry) :
    ∀ l : List ActionEntry, record_all es (.content l) = .content (l ++ es) := by
  induction es with
  | nil => intro l; simp [record_all]
  | cons e es ih =>
    intro l
    have h1 : record_all (e :: es) (.content l)
        = record_all es (.content (l ++ [e])) := rfl
    rw [h1, ih]
    simp

/-- C7: recording any sequence of events (each with its valid user id)
starting from an empty store makes `get_user_actions uid` return exactly
the recorded events whose user id is `uid`, in call order, and no events
of other users. -/
theorem actions_for_returns_recorded_events :
    ∀ (es : List ActionEntry) (uid : Int),
      get_user_actions uid (record_all es .absent) =
        es.filter (fun e => decide (e.user_id = uid)) := by
  intro es uid
  cases es with
  | nil => rfl
  | cons e es =>
    have h1 : record_all (e :: es) .absent = record_all es (.content [e]) := rfl
    rw [h1, record_all_content]
    rfl

/-- C4: `registerIfNew` (`_append_user_event`) is idempotent and
first-write-wins: (a) for every stored registry state, a call whose entry
carries a `user_id` already occurring in the store leaves the store
unchanged; (b) N ≥ 1 calls with the same `user_id` — even with different
usernames, names, or language codes — starting from a store not yet
containing that id append exactly the first entry, so exactly one stored
record exists for that id, holding the field values from the first call. -/
theorem register_if_new_first_write_wins :
    (∀ (s : List UserRecord) (d : UserRecord) (uid : Int),
        d.user_id = some uid →
        s.any (fun x => decide (x.user_id = some uid)) = true →
        append_user_event d s = s) ∧
    (∀ (store : List UserRecord) (e : UserRecord) (es : List UserRecord) (uid : Int),
        e.user_id = some uid → uid ≠ 0 →
        (∀ x ∈ es, x.user_id = some uid) →
        (∀ x ∈ store, x.user_id ≠ some uid) →
        register_all (e :: es) store = store ++ [e] ∧
        (register_all (e :: es) store).filter
            (fun x => decide (x.user_id = some uid)) = [e]) := by
  have ha : ∀ (s : List UserRecord) (d : UserRecord) (uid : Int),
      d.user_id = some uid →
      s.any (fun x => decide (x.user_id = some uid)) = true →
      append_user_event d s = s := by
    intro s d uid hd hany
    simp only [append_user_event, hd]
    by_cases h0 : uid = 0
    · simp [h0]
    · simp [h0, hany]
  refine ⟨ha, fun store e es uid he h0 hes hstore => ?_⟩
  have hfresh : store.any (fun x => decide (x.user_id = some uid)) = false := by
    rw [List.any_eq_false]
    intro x hx
    simp [hstore x hx]
  have hfirst : append_user_event e store = store ++ [e] := by
    simp only [append_user_event, he]
    rw [if_neg h0, if_neg (by simp [hfresh])]
  have hmem : (store ++ [e]).any (fun x => decide (x.user_id = some uid)) = true := by
    rw [List.any_eq_true]
    exact ⟨e, by simp, by simp [he]⟩
  have hrest : ∀ es1 : List UserRecord, (∀ x ∈ es1, x.user_id = some uid) →
      register_all es1 (store ++ [e]) = store ++ [e] := by
    intro es1
    induction es1 with
    | nil => intro _; rfl
    | cons d ds ih =>
      intro h
      have hstep : register_all (d :: ds) (store ++ [e])
          = register_all ds (append_user_event d (store ++ [e])) := rfl
      rw [hstep, ha (store ++ [e]) d uid (h d (by simp)) hmem]
      exact ih (fun x hx => h x (by simp [hx]))
  have hall : register_all (e :: es) store = store ++ [e] := by
    have hstep : register_all (e :: es) store
        = register_all es (append_user_event e store) := rfl
    rw [hstep, hfirst, hrest es hes]
  refine ⟨hall, ?_⟩
  rw [hall, List.filter_append]
  have h2 : store.filter (fun x => decide (x.user_id = some uid)) = [] := by
    rw [List.filter_eq_nil_iff]
    intro x hx
    simp [hstore x hx]
  rw [h2]
  simp [he]

/-- Witness for C4: registering Alice (id 5) and then Bob with the same
id 5 into an empty registry stores exactly the record of Alice. -/
theorem register_if_new_first_write_wins_witness :
    register_all
      [⟨some 5, some "alice", none, none, none⟩,
       ⟨some 5, some "bob", none, none, none⟩] []
      = [⟨some 5, some "alice", none, none, none⟩] := by
  have h := (register_if_new_first_write_wins.2 []
      ⟨some 5, some "alice", none, none, none⟩
      [⟨some 5, some "bob", none, none, none⟩] 5 rfl (by decide)
      (by intro x hx; simp only [List.mem_singleton] at hx; rw [hx])
      (by intro x hx; simp at hx)).1
  simpa using h

/-- The update used to exercise the `start` handler: user 7 in a private
chat, no message payload needed for the logging slice. -/
def demoStartUpdate : Update :=
  { effective_user := some ⟨7, none, none, none, none⟩,
    effective_chat := some ⟨7, "private"⟩,
    message := none,
    callback_query := none }

/-- C1 (refuted by the code): because `collect_user_silently` stores
`collected_user` before the repeat check runs, the check is always truthy,
so the `start` handler logs `start_triggered_again` on every invocation —
including the very first `start` of a fresh session, which the claim says
must log a plain `start` event.  First conjunct: for every update, session,
registry and log state the slice logs via `log_start_triggered_again`.
Second conjunct: a fresh session (no `collected_user`) with user 7 ends
with exactly one `start_triggered_again` event and no `start` event. -/
theorem start_always_logs_triggered_again :
    (∀ (u : Update) (ts : String) (ud : UserData) (reg : List UserRecord)
        (f : StoreFile),
        (start_log_slice u ts ud reg f).2.2 = log_start_triggered_again u ts f) ∧
    (start_log_slice demoStartUpdate "t0" freshUserData [] .absent).2.2 =
      .content [⟨"start_triggered_again", 7, "t0", []⟩] := by
  exact ⟨fun u ts ud reg f => rfl, rfl⟩

/-- C9: at most one pending submission per session — when the extracted
media passes validation, `handle_video` overwrites all three `pending_*`
fields with the values of the new candidate, whatever was staged before; when
validation fails, all three `pending_*` fields are left unchanged. -/
theorem pending_staged_replaces_previous :
    ∀ (eu : Option TgUser) (ec : Option TgChat) (cb : Option CallbackQuery)
      (m : TgMessage) (ts : String) (ud : UserData) (reg : List UserRecord)
      (f : StoreFile) (fid kind : String) (dur fs : Option Int),
      extract_media m = some (fid, kind, dur, fs) →
      (validate_incoming_video (fs.getD 0) (dur.getD 0) MAX_DURATION_SECS = "" →
        (handle_video ⟨eu, ec, some m, cb⟩ ts ud reg f).1.pending_file_id = some fid ∧
        (handle_video ⟨eu, ec, some m, cb⟩ ts ud reg f).1.pending_kind = some kind ∧
        (handle_video ⟨eu, ec, some m, cb⟩ ts ud reg f).1.pending_duration = some dur) ∧
      (validate_incoming_video (fs.getD 0) (dur.getD 0) MAX_DURATION_SECS ≠ "" →
        (handle_video ⟨eu, ec, some m, cb⟩ ts ud reg f).1.pending_file_id
            = ud.pending_file_id ∧
        (handle_video ⟨eu, ec, some m, cb⟩ ts ud reg f).1.pending_kind
            = ud.pending_kind ∧
        (handle_video ⟨eu, ec, some m, cb⟩ ts ud reg f).1.pending_duration
            = ud.pending_duration) := by
  intro eu ec cb m ts ud reg f fid kind dur fs hext
  constructor
  · intro hv
    simp [handle_video, hext, hv]
  · intro hv
    simp only [handle_video, hext]
    split
    · exact ⟨rfl, rfl, rfl⟩
    · next hcond => exact absurd hv hcond

/-- Witness for C9: a 30-second, 10 MB video with file id `f1` lands in the
pending slot of a fresh session. -/
theorem pending_staged_replaces_previous_witness :
    (handle_video
        ⟨none, none, some ⟨some ⟨"f1", 30, some (10 * 1024 * 1024)⟩, none, none⟩, none⟩
        "t0" freshUserData [] .absent).1.pending_file_id = some "f1" :=
  ((pending_staged_replaces_previous none none none
      ⟨some ⟨"f1", 30, some (10 * 1024 * 1024)⟩, none, none⟩ "t0" freshUserData [] .absent
      "f1" "video" (some 30) (some (10 * 1024 * 1024)) rfl).1
    (by rw [validate_incoming_video_eq]; decide)).1

/-- C8: video confirmation is atomic with respect to the pending
submission.  For a not-yet-processed session holding a pending file:
(first part) a confirm action whose download fails (empty local path)
leaves `pending_file_id`, `pending_kind` and `pending_duration` unchanged
and replies with the retry instruction; (second part) the three `pending_*`
fields end up cleared exactly when the download succeeded after a confirm
action, or the action was a reject (non-confirm) token. -/
theorem confirm_download_failure_preserves_pending :
    ∀ (eu : Option TgUser) (ec : Option TgChat) (m : Option TgMessage)
      (q : CallbackQuery) (ts dl : String) (ud : UserData) (f : StoreFile)
      (fid : String),
      ud.video_confirmation_processed = false →
      ud.pending_file_id = some fid →
      (((q.data = "confirm_yes" ∨ q.data = "privacy_confirm_yes") → dl = "" →
        (handle_video_confirmation ⟨eu, ec, m, some q⟩ ts dl ud f).1.pending_file_id
            = some fid ∧
        (handle_video_confirmation ⟨eu, ec, m, some q⟩ ts dl ud f).1.pending_kind
            = ud.pending_kind ∧
        (handle_video_confirmation ⟨eu, ec, m, some q⟩ ts dl ud f).1.pending_duration
            = ud.pending_duration ∧
        Effect.reply DOWNLOAD_ERROR_TEXT
            ∈ (handle_video_confirmation ⟨eu, ec, m, some q⟩ ts dl ud f).2.2) ∧
      (((handle_video_confirmation ⟨eu, ec, m, some q⟩ ts dl ud f).1.pending_file_id
            = none ∧
        (handle_video_confirmation ⟨eu, ec, m, some q⟩ ts dl ud f).1.pending_kind
            = none ∧
        (handle_video_confirmation ⟨eu, ec, m, some q⟩ ts dl ud f).1.pending_duration
            = none) ↔
        (((q.data = "confirm_yes" ∨ q.data = "privacy_confirm_yes") ∧ dl ≠ "") ∨
          ¬ (q.data = "confirm_yes" ∨ q.data = "privacy_confirm_yes")))) := by
  intro eu ec m q ts dl ud f fid hproc hpf
  by_cases hc : q.data = "confirm_yes" ∨ q.data = "privacy_confirm_yes"
  · by_cases hdl : dl = ""
    · constructor
      · intro _ _
        simp [handle_video_confirmation, hproc, hpf, hc, hdl]
      · simp [handle_video_confirmation, hproc, hpf, hc, hdl]
    · constructor
      · intro _ h
        exact absurd h hdl
      · simp [handle_video_confirmation, hproc, hpf, hc, hdl]
  · constructor
    · intro h
      exact absurd h hc
    · simp [handle_video_confirmation, hproc, hpf, hc]

/-- Witness for C8: a failed download for pending file `f1` keeps
`pending_file_id` at `f1`. -/
theorem confirm_download_failure_preserves_pending_witness :
    (handle_video_confirmation
        ⟨none, none, none, some ⟨"confirm_yes", ⟨7, none, none, none, none⟩, true⟩⟩
        "t0" ""
        { freshUserData with pending_file_id := some "f1" }
        .absent).1.pending_file_id = some "f1" :=
  (((confirm_download_failure_preserves_pending none none none
      ⟨"confirm_yes", ⟨7, none, none, none, none⟩, true⟩ "t0" ""
      { freshUserData with pending_file_id := some "f1" } .absent "f1"
      rfl rfl).1) (Or.inl rfl) rfl).1

/-- C10: once a confirm action has been processed for a staged video, every
further confirmation callback is a complete no-op until a new valid video
clears the flag.  Conjuncts: (1) with the flag set, the handler returns the
session, log and a bare callback acknowledgement — no log entry, no
download, no reply; (2) after a confirm action on an unprocessed session the
flag is set, for every download outcome (so the flag is up before the
download result matters, and a failed download cannot be retried by the
button); (3) `handle_video` clears the flag when a new video passes
validation; (4) hence a second confirmation callback right after a confirm
action changes nothing and emits only the acknowledgement, so a video is
never downloaded twice for one staged submission. -/
theorem confirmation_processed_is_noop :
    (∀ (eu : Option TgUser) (ec : Option TgChat) (m : Option TgMessage)
        (q : CallbackQuery) (ts dl : String) (ud : UserData) (f : StoreFile),
        ud.video_confirmation_processed = true →
        handle_video_confirmation ⟨eu, ec, m, some q⟩ ts dl ud f
          = (ud, f, [.answerCallback])) ∧
    (∀ (eu : Option TgUser) (ec : Option TgChat) (m : Option TgMessage)
        (q : CallbackQuery) (ts dl : String) (ud : UserData) (f : StoreFile),
        ud.video_confirmation_processed = false →
        (q.data = "confirm_yes" ∨ q.data = "privacy_confirm_yes") →
        (handle_video_confirmation ⟨eu, ec, m, some q⟩ ts dl ud f).1.video_confirmation_processed
          = true) ∧
    (∀ (eu : Option TgUser) (ec : Option TgChat) (cb : Option CallbackQuery)
        (m : TgMessage) (ts : String) (ud : UserData) (reg : List UserRecord)
        (f : StoreFile) (fid kind : String) (dur fs : Option Int),
        extract_media m = some (fid, kind, dur, fs) →
        validate_incoming_video (fs.getD 0) (dur.getD 0) MAX_DURATION_SECS = "" →
        (handle_video ⟨eu, ec, some m, cb⟩ ts ud reg f).1.video_confirmation_processed
          = false) ∧
    (∀ (eu ec2 : Option TgUser) (ecc ec2c : Option TgChat) (m m2 : Option TgMessage)
        (q q2 : CallbackQuery) (ts dl ts2 dl2 : String) (ud : UserData) (f : StoreFile),
        ud.video_confirmation_processed = false →
        (q.data = "confirm_yes" ∨ q.data = "privacy_confirm_yes") →
        handle_video_confirmation ⟨ec2, ec2c, m2, some q2⟩ ts2 dl2
            (handle_video_confirmation ⟨eu, ecc, m, some q⟩ ts dl ud f).1
            (handle_video_confirmation ⟨eu, ecc, m, some q⟩ ts dl ud f).2.1
          = ((handle_video_confirmation ⟨eu, ecc, m, some q⟩ ts dl ud f).1,
             (handle_video_confirmation ⟨eu, ecc, m, some q⟩ ts dl ud f).2.1,
             [.answerCallback])) := by
  have h1 : ∀ (eu : Option TgUser) (ec : Option TgChat) (m : Option TgMessage)
      (q : CallbackQuery) (ts dl : String) (ud : UserData) (f : StoreFile),
      ud.video_confirmation_processed = true →
      handle_video_confirmation ⟨eu, ec, m, some q⟩ ts dl ud f
        = (ud, f, [.answerCallback]) := by
    intro eu ec m q ts dl ud f h
    simp [handle_video_confirmation, h]
  have h2 : ∀ (eu : Option TgUser) (ec : Option TgChat) (m : Option TgMessage)
      (q : CallbackQuery) (ts dl : String) (ud : UserData) (f : StoreFile),
      ud.video_confirmation_processed = false →
      (q.data = "confirm_yes" ∨ q.data = "privacy_confirm_yes") →
      (handle_video_confirmation ⟨eu, ec, m, some q⟩ ts dl ud f).1.video_confirmation_processed
        = true := by
    intro eu ec m q ts dl ud f h hc
    cases hfid : ud.pending_file_id with
    | none => simp [handle_video_confirmation, h, hc, hfid]
    | some fid =>
      by_cases hdl : dl = "" <;>
        simp [handle_video_confirmation, h, hc, hfid, hdl]
  refine ⟨h1, h2, ?_, ?_⟩
  · intro eu ec cb m ts ud reg f fid kind dur fs hext hv
    simp [handle_video, hext, hv]
  · intro eu ec2 ecc ec2c m m2 q q2 ts dl ts2 dl2 ud f h hc
    exact h1 ec2 ec2c m2 q2 ts2 dl2 _ _ (h2 eu ecc m q ts dl ud f h hc)

/-- Witness for C10: with the processed flag already set, pressing
`confirm_yes` again changes nothing and only acknowledges the callback. -/
theorem confirmation_processed_is_noop_witness :
    handle_video_confirmation
        ⟨none, none, none, some ⟨"confirm_yes", ⟨7, none, none, none, none⟩, true⟩⟩
        "t1" "" { freshUserData with video_confirmation_processed := true } .absent
      = ({ freshUserData with video_confirmation_processed := true }, .absent,
         [.answerCallback]) :=
  confirmation_processed_is_noop.1 none none none
    ⟨"confirm_yes", ⟨7, none, none, none, none⟩, true⟩ "t1" ""
    { freshUserData with video_confirmation_processed := true } .absent rfl

end TgBot
